import Mathlib

/-!
Verification of the remote-syscall dispatch layer of angr
(`src/angr/engines/remote_syscall.py`): the `SimEngineRemoteSyscall`
mixin that decides whether a syscall trap is forwarded to a remote
syscall executor ("Bureau") or demoted to the engine's local models.

The Python code is shallowly embedded: the environment the dispatcher
probes (state history, solver answers, OS model, syscall tables,
calling-convention argument accessors) is a record of inputs,
exceptions are an error type, and the sequence of mutations and calls
the dispatcher performs on the commit path is recorded as an event
trace.  Non-commit paths (delegation to `super().process_successors`
or a raised exception) perform no mutation, hence carry an empty
trace.
-/

/-- Source: `BASE_SYSCALL_BYPASS_LIST` (remote_syscall.py lines 18-28), the
set literal {mmap, munmap, brk, write, read, exit, exit_group}; the
commented-out entries ('open', 'close') are absent. -/
def BASE_SYSCALL_BYPASS_LIST : List String :=
  ["mmap", "munmap", "brk", "write", "read", "exit", "exit_group"]

/-- Source: `SYSCALL_BYPASS_LISTS` (lines 31-43), a dict from ABI name to
bypass set; the mips entries are the base set unioned with
{set_thread_area}. -/
def SYSCALL_BYPASS_LISTS : List (String × List String) :=
  [("amd64", BASE_SYSCALL_BYPASS_LIST),
   ("i386", BASE_SYSCALL_BYPASS_LIST),
   ("mips-n32", BASE_SYSCALL_BYPASS_LIST ++ ["set_thread_area"]),
   ("mips-o32", BASE_SYSCALL_BYPASS_LIST ++ ["set_thread_area"]),
   ("mips-n64", BASE_SYSCALL_BYPASS_LIST ++ ["set_thread_area"])]

/-- Source: `SYSCALL_BYPASS_LISTS.get(syscall_abi, BASE_SYSCALL_BYPASS_LIST)`
(line 91): dict lookup with the base list as the default. -/
def effectiveBypassList (abi : String) : List String :=
  match SYSCALL_BYPASS_LISTS.lookup abi with
  | some l => l
  | none => BASE_SYSCALL_BYPASS_LIST

/-- Source: `syscall_proto` as returned by `lib.get_prototype` (line 96);
only the ordered argument-type list `args` is consumed (line 105), and
of it only the length (the types feed a TODO). -/
structure SyscallProto where
  args : List String
deriving DecidableEq, Repr

/-- Embedding of Python's `str.startswith`: a character-level prefix
test on the strings' character lists. -/
def pyStartsWith (s pre : String) : Bool :=
  pre.data.isPrefixOf s.data

/-- Source: the guard at lines 54-57: the parent history entry's jumpkind
must exist and start with `Ijk_Sys` (`jumpkind.startswith('Ijk_Sys')`).
`none` stands for any of the three missing cases (no history, no parent,
no jumpkind). -/
def jumpkindIsSys : Option String → Bool
  | none => false
  | some jk => pyStartsWith jk "Ijk_Sys"

/-- Environment of one `process_successors` dispatch attempt: everything
the Python method reads from `self.state`, `self.project` and the global
tables, with solver calls pre-answered.
`syscallNumEval` is `state.solver.eval_one(syscall_num)`: `none` means
`SimSolverError` (no unique concrete value).  `argOf i` is
`syscall_cc.arg(state, i)` combined with the symbolic test at line 108:
`none` means `state.solver.symbolic(arg)` is true, `some v` means the
argument is concrete with unique value `v` (line 109's `eval_one`). -/
structure DispatchInput where
  parentJumpkind : Option String
  bypassUnsupported : Bool
  satisfiable : Bool
  syscallNumEval : Option Nat
  abiHint : Option String
  syscallAbis : List (String × Nat × Nat)
  numberMapping : String → Nat → Option String
  getPrototype : String → String → Option SyscallProto
  argOf : Nat → Option Nat
  returnAddr : Nat

/-- Source: the scan at lines 165-167 of `_syscall_abi`: return the first
ABI whose half-open range `[min_syscall_num, max_syscall_num)` contains
the number; `none` models falling through to the `AngrSyscallError`
raise at line 169. -/
def resolveAbiRanges : List (String × Nat × Nat) → Nat → Option String
  | [], _ => none
  | (abi, lo, hi) :: rest, num =>
    if lo ≤ num ∧ num < hi then some abi else resolveAbiRanges rest num

/-- Source: `SimEngineRemoteSyscall._syscall_abi` (lines 144-169): first
the direct hint from `simos.syscall_abi(state)`; then, if exactly one
ABI is declared, that one unconditionally; otherwise the range scan. -/
def resolveSyscallAbi (hint : Option String) (abis : List (String × Nat × Nat))
    (num : Nat) : Option String :=
  match hint with
  | some abi => some abi
  | none =>
    match abis with
    | [entry] => some entry.1
    | _ => resolveAbiRanges abis num

/-- Source: the argument-extraction loop at lines 103-112, specialised to
the list of indices it visits.  A symbolic argument (`argOf i = none`)
aborts the whole loop with no result. -/
def concretizeList (argOf : Nat → Option Nat) : List Nat → Option (List Nat)
  | [] => some []
  | i :: rest =>
    match argOf i with
    | none => none
    | some v =>
      match concretizeList argOf rest with
      | none => none
      | some vs => some (v :: vs)

/-- Source: lines 103-112: iterate `enumerate(syscall_proto.args)`, i.e.
indices `0 .. n-1` where `n` is the prototype's argument count. -/
def concretizeArgs (argOf : Nat → Option Nat) (n : Nat) : Option (List Nat) :=
  concretizeList argOf (List.range n)

/-- Exceptions the dispatcher can raise, one constructor per raise site.
The spec's taxonomy names them: `unsupportedSyscallNotConfigured` is its
`AmbiguousSyscallNumber` (line 69, `AngrUnsupportedSyscallError`),
`unsatisfiableState` line 74, `symbolicSyscallNumber` line 76,
`unknownSyscallNumber` line 86, `unknownSyscallNameNotImplemented` the
`NotImplementedError` at line 88, `unknownPrototype` line 99,
`unknownPrototypeNotImplemented` line 101, and `unresolvedAbi` the
`AngrSyscallError` at line 169. -/
inductive DispatchError where
  | unsupportedSyscallNotConfigured
  | unsatisfiableState
  | symbolicSyscallNumber
  | unknownSyscallNumber (num : Nat)
  | unknownSyscallNameNotImplemented
  | unknownPrototype (num : Nat) (name : String)
  | unknownPrototypeNotImplemented
  | unresolvedAbi (num : Nat)
deriving DecidableEq, Repr

/-- Record of the committed successor and state mutations (lines 114-142):
the successors object's sort, artifacts, description and processed flag,
the scratch updates, and what was sent to the remote executor. -/
structure Commit where
  sort : String
  is_syscall : Bool
  name : String
  no_ret : Bool
  adds_exits : Bool
  scratchSimProcedure : Option String
  recentBlockCount : Nat
  invokedNum : Nat
  invokedArgs : List Nat
  targetAddr : Nat
  guardTrue : Bool
  jumpkind : String
  description : String
  processed : Bool
deriving DecidableEq, Repr

/-- Observable actions of the commit path, in program order: mutations of
`successors` and `state`, the two `state._inspect` events and the call
into `project.bureau.invoke_syscall`. -/
inductive TraceEvent where
  | setSort (s : String)
  | setArtifacts (is_sys : Bool) (nm : String) (no_ret : Bool) (adds_exits : Bool)
  | clearSimProcedure
  | setRecentBlockCount (n : Nat)
  | inspectBefore (nm : String)
  | invokeRemote (num : Nat) (args : List Nat)
  | addSuccessor (addr : Nat) (guardTrue : Bool) (jumpkind : String)
  | inspectAfter (nm : String)
  | setDescription (d : String)
  | setProcessed (b : Bool)
deriving DecidableEq, Repr

/-- Terminal of a dispatch attempt: `localFallback` is every
`return super().process_successors(...)`, `fatal` a raised exception,
`done` the committed successor. -/
inductive Outcome where
  | localFallback
  | fatal (e : DispatchError)
  | done (c : Commit)
deriving DecidableEq, Repr

/-- Result of one dispatch attempt: the terminal outcome together with
the ordered trace of mutations and external calls performed on the way.
Non-commit paths mutate nothing, so their trace is empty. -/
structure DispatchResult where
  outcome : Outcome
  trace : List TraceEvent
deriving DecidableEq, Repr

/-- Source: lines 114-142, the straight-line commit path once the
arguments are concretized: set `successors.sort`, fill the artifact map,
reset `state.scratch.sim_procedure` and
`state.history.recent_block_count`, fire the before-inspect, invoke the
Bureau, add the one successor (return address target, `claripy.true`
guard, `Ijk_Ret`), fire the after-inspect, set the description
`'SimProcedure ' + syscall_name` then `+= ' (syscall)'`, and mark
processed. -/
def commitDispatch (inp : DispatchInput) (num : Nat) (name : String)
    (args : List Nat) : DispatchResult :=
  { outcome := .done
      { sort := "SimProcedure"
        is_syscall := true
        name := name
        no_ret := false
        adds_exits := true
        scratchSimProcedure := none
        recentBlockCount := 1
        invokedNum := num
        invokedArgs := args
        targetAddr := inp.returnAddr
        guardTrue := true
        jumpkind := "Ijk_Ret"
        description := "SimProcedure " ++ name ++ " (syscall)"
        processed := true }
    trace :=
      [.setSort "SimProcedure",
       .setArtifacts true name false true,
       .clearSimProcedure,
       .setRecentBlockCount 1,
       .inspectBefore name,
       .invokeRemote num args,
       .addSuccessor inp.returnAddr true "Ijk_Ret",
       .inspectAfter name,
       .setDescription ("SimProcedure " ++ name ++ " (syscall)"),
       .setProcessed true] }

/-- Source: `SimEngineRemoteSyscall.process_successors` (lines 52-142),
branch for branch: the `Ijk_Sys` guard; `eval_one` of the syscall number
with the three-way exception at lines 65-76; `_syscall_abi`; the
number-to-name lookup with its two raises; the bypass-list check; the
prototype lookup with its two raises; argument concretization
(symbolic argument delegates to `super()`); and finally the commit. -/
def processSuccessors (inp : DispatchInput) : DispatchResult :=
  if jumpkindIsSys inp.parentJumpkind = false then
    { outcome := .localFallback, trace := [] }
  else
    match inp.syscallNumEval with
    | none =>
      if inp.bypassUnsupported = false then
        { outcome := .fatal .unsupportedSyscallNotConfigured, trace := [] }
      else if inp.satisfiable = false then
        { outcome := .fatal .unsatisfiableState, trace := [] }
      else
        { outcome := .fatal .symbolicSyscallNumber, trace := [] }
    | some num =>
      match resolveSyscallAbi inp.abiHint inp.syscallAbis num with
      | none => { outcome := .fatal (.unresolvedAbi num), trace := [] }
      | some abi =>
        match inp.numberMapping abi num with
        | none =>
          if inp.bypassUnsupported = false then
            { outcome := .fatal (.unknownSyscallNumber num), trace := [] }
          else
            { outcome := .fatal .unknownSyscallNameNotImplemented, trace := [] }
        | some name =>
          if (effectiveBypassList abi).contains name then
            { outcome := .localFallback, trace := [] }
          else
            match inp.getPrototype abi name with
            | none =>
              if inp.bypassUnsupported = false then
                { outcome := .fatal (.unknownPrototype num name), trace := [] }
              else
                { outcome := .fatal .unknownPrototypeNotImplemented, trace := [] }
            | some proto =>
              match concretizeArgs inp.argOf proto.args.length with
              | none => { outcome := .localFallback, trace := [] }
              | some args => commitDispatch inp num name args

/-- Count of `invokeRemote` events in a trace: how many times the remote
executor (the Bureau) was called. -/
def countInvokeRemote (t : List TraceEvent) : Nat :=
  t.countP fun e => match e with | .invokeRemote _ _ => true | _ => false

/-- Count of `addSuccessor` events in a trace: how many successors were
produced. -/
def countAddSuccessor (t : List TraceEvent) : Nat :=
  t.countP fun e => match e with | .addSuccessor _ _ _ => true | _ => false

/-! ### Sample dispatch environments used by witnesses -/

/-- Concrete amd64-style environment: syscall number 1 maps to `write`
(bypassed), 2 to `open` (not bypassed, 3-argument prototype), all three
argument registers concrete. -/
def sampleMapping : String → Nat → Option String := fun abi n =>
  if abi = "amd64" then
    if n = 1 then some "write" else if n = 2 then some "open" else none
  else none

/-- Prototype table for the sample environment: `open` and `write` both
have three declared arguments. -/
def sampleProtos : String → String → Option SyscallProto := fun abi nm =>
  if abi = "amd64" ∧ nm = "open" then some ⟨["ptr", "int", "int"]⟩
  else if abi = "amd64" ∧ nm = "write" then some ⟨["int", "ptr", "size_t"]⟩
  else none

/-- Dispatch attempt on a concrete `write` syscall (number 1, amd64,
all arguments concrete): the bypass list must demote it. -/
def sampleWriteInput : DispatchInput :=
  { parentJumpkind := some "Ijk_Sys_syscall"
    bypassUnsupported := false
    satisfiable := true
    syscallNumEval := some 1
    abiHint := some "amd64"
    syscallAbis := [("amd64", 0, 600)]
    numberMapping := sampleMapping
    getPrototype := sampleProtos
    argOf := fun i => if i < 3 then some (i + 10) else none
    returnAddr := 4198400 }

/-- Same environment, but the trap is syscall number 2 (`open`, not
bypassed): the dispatcher must commit remotely. -/
def sampleOpenInput : DispatchInput :=
  { sampleWriteInput with syscallNumEval := some 2 }

/-! ### C10: unlisted ABIs fall back to the base bypass set -/

/-- C10: an ABI with no entry of its own in `SYSCALL_BYPASS_LISTS` gets
exactly `BASE_SYSCALL_BYPASS_LIST` as its bypass policy, and every ABI's
effective bypass list contains every base-list syscall (the per-ABI
entries only ever add names). -/
theorem unlisted_abi_uses_base_bypass_and_base_is_subset :
    (∀ abi : String, SYSCALL_BYPASS_LISTS.lookup abi = none →
      effectiveBypassList abi = BASE_SYSCALL_BYPASS_LIST) ∧
    (∀ abi s : String, BASE_SYSCALL_BYPASS_LIST.contains s = true →
      (effectiveBypassList abi).contains s = true) := by
  constructor
  · intro abi h
    unfold effectiveBypassList
    rw [h]
  · intro abi s h
    unfold effectiveBypassList
    split
    case h_1 l heq =>
      simp only [SYSCALL_BYPASS_LISTS, List.lookup] at heq
      repeat' split at heq
      all_goals cases heq
      all_goals simp_all [List.mem_append]
    case h_2 => exact h

/-- Witness for C10 at a concrete point: ABI "arm64" has no entry, so it
uses the base list, and the mips-n32 list (which extends the base one)
still contains the base syscall "write". -/
theorem unlisted_abi_uses_base_bypass_witness :
    effectiveBypassList "arm64" = BASE_SYSCALL_BYPASS_LIST ∧
    (effectiveBypassList "mips-n32").contains "write" = true :=
  ⟨unlisted_abi_uses_base_bypass_and_base_is_subset.1 "arm64" (by decide),
   unlisted_abi_uses_base_bypass_and_base_is_subset.2 "mips-n32" "write" (by decide)⟩

/-! ### C1: bypassed syscalls always demote to LOCAL -/

/-- C1: whenever the resolved syscall name is in the ABI's bypass set,
`process_successors` delegates to the fallback handler (LOCAL) with an
empty trace — no successor added, no remote invocation — no matter what
the argument expressions are; and the amd64 bypass set is exactly
{mmap, munmap, brk, write, read, exit, exit_group}. -/
theorem bypassed_syscall_demotes_to_local :
    (∀ (inp : DispatchInput) (num : Nat) (abi name : String),
      jumpkindIsSys inp.parentJumpkind = true →
      inp.syscallNumEval = some num →
      resolveSyscallAbi inp.abiHint inp.syscallAbis num = some abi →
      inp.numberMapping abi num = some name →
      (effectiveBypassList abi).contains name = true →
      processSuccessors inp = { outcome := .localFallback, trace := [] }) ∧
    (∀ s : String, (effectiveBypassList "amd64").contains s = true ↔
      (s = "mmap" ∨ s = "munmap" ∨ s = "brk" ∨ s = "write" ∨ s = "read" ∨
       s = "exit" ∨ s = "exit_group")) := by
  constructor
  · intro inp num abi name hjk hnum habi hname hbl
    unfold processSuccessors
    simp [hjk, hnum, habi, hname, hbl]
    intro hn
    exact absurd (by simpa using hbl) hn
  · intro s
    simp [effectiveBypassList, SYSCALL_BYPASS_LISTS, BASE_SYSCALL_BYPASS_LIST,
      List.lookup, List.contains]

/-- Witness for C1: the concrete `write` dispatch (amd64, number 1, fully
concrete arguments) demotes to LOCAL with an empty trace. -/
theorem bypassed_syscall_demotes_to_local_witness :
    processSuccessors sampleWriteInput = { outcome := .localFallback, trace := [] } :=
  bypassed_syscall_demotes_to_local.1 sampleWriteInput 1 "amd64" "write"
    (by decide) rfl rfl (by decide) (by decide)

/-! ### Lemmas about the argument-concretization loop -/

/-- Helper: if some visited index holds a symbolic argument, the loop
produces nothing. -/
theorem concretizeList_eq_none_of_mem (f : Nat → Option Nat) :
    ∀ (xs : List Nat) (i : Nat), i ∈ xs → f i = none →
      concretizeList f xs = none := by
  intro xs
  induction xs with
  | nil => intro i h; cases h
  | cons j rest ih =>
    intro i hmem hnone
    rcases List.mem_cons.mp hmem with h | h
    · subst h
      simp [concretizeList, hnone]
    · unfold concretizeList
      rw [ih i h hnone]
      cases f j <;> simp
  
/-- Helper: if every visited index holds a concrete argument, the loop
succeeds. -/
theorem concretizeList_isSome (f : Nat → Option Nat) :
    ∀ xs : List Nat, (∀ i ∈ xs, (f i).isSome) →
      ∃ l, concretizeList f xs = some l := by
  intro xs
  induction xs with
  | nil => intro _; exact ⟨[], rfl⟩
  | cons j rest ih =>
    intro h
    obtain ⟨v, hv⟩ := Option.isSome_iff_exists.mp (h j (List.mem_cons_self j rest))
    obtain ⟨l, hl⟩ := ih fun i hi => h i (List.mem_cons_of_mem j hi)
    exact ⟨v :: l, by simp [concretizeList, hv, hl]⟩

/-- Helper: a successful loop returns one value per visited index, in
order. -/
theorem concretizeList_some_spec (f : Nat → Option Nat) :
    ∀ (xs : List Nat) (l : List Nat), concretizeList f xs = some l →
      l.length = xs.length ∧ ∀ k : Nat, l.get? k = (xs.get? k).bind f := by
  intro xs
  induction xs with
  | nil =>
    intro l h
    simp [concretizeList] at h
    subst h
    exact ⟨rfl, fun k => by cases k <;> simp⟩
  | cons j rest ih =>
    intro l h
    unfold concretizeList at h
    cases hj : f j with
    | none => rw [hj] at h; cases h
    | some v =>
      rw [hj] at h
      cases hr : concretizeList f rest with
      | none => rw [hr] at h; cases h
      | some vs =>
        rw [hr] at h
        cases h
        obtain ⟨hlen, hget⟩ := ih vs hr
        refine ⟨by simp [hlen], fun k => ?_⟩
        cases k with
        | zero => simp [hj]
        | succ k => simpa using hget k

/-! ### C6: argument concretization is all-or-nothing -/

/-- C6: the loop at lines 103-112 succeeds exactly when every argument
index below the prototype's argument count is concrete; on success it
returns exactly one value per index with order preserved (`l.get? i` is
the unique concrete value of argument `i`), and a single symbolic
argument makes the whole loop fail. -/
theorem concretize_args_all_or_nothing :
    (∀ (f : Nat → Option Nat) (n : Nat) (l : List Nat),
      concretizeArgs f n = some l →
      l.length = n ∧ ∀ i : Nat, i < n → l.get? i = f i) ∧
    (∀ (f : Nat → Option Nat) (n i : Nat),
      i < n → f i = none → concretizeArgs f n = none) ∧
    (∀ (f : Nat → Option Nat) (n : Nat),
      (∀ i : Nat, i < n → (f i).isSome) → ∃ l, concretizeArgs f n = some l) := by
  refine ⟨?_, ?_, ?_⟩
  · intro f n l h
    obtain ⟨hlen, hget⟩ := concretizeList_some_spec f (List.range n) l h
    refine ⟨by simpa using hlen, fun i hi => ?_⟩
    rw [hget i, List.get?_eq_getElem?, List.getElem?_range hi]
    rfl
  · intro f n i hi hnone
    exact concretizeList_eq_none_of_mem f (List.range n) i
      (List.mem_range.mpr hi) hnone
  · intro f n h
    exact concretizeList_isSome f (List.range n)
      fun i hi => h i (List.mem_range.mp hi)

/-- Witness for C6: three concrete arguments concretize to a list of
length three, and one symbolic argument among three aborts
concretization. -/
theorem concretize_args_all_or_nothing_witness :
    (([15, 16, 17] : List Nat).length = 3 ∧
      concretizeArgs (fun i => if i = 1 then none else some 9) 3 = none) :=
  ⟨(concretize_args_all_or_nothing.1 (fun i => some (i + 15)) 3 [15, 16, 17] rfl).1,
   concretize_args_all_or_nothing.2.1 (fun i => if i = 1 then none else some 9) 3 1
     (by decide) rfl⟩

/-! ### C2: a symbolic argument demotes to LOCAL, never to fatal -/

/-- Dispatch attempt on `open` where the second argument register is
symbolic: argument concretization must fail and demote to LOCAL. -/
def sampleSymbolicArgInput : DispatchInput :=
  { sampleOpenInput with argOf := fun i => if i = 1 then none else some 7 }

/-- C2: whenever some argument below the prototype's argument count is
symbolic, `process_successors` delegates to the fallback handler with an
empty trace — no remote invocation and no raised error — regardless of
the bypass decision for the resolved name. -/
theorem symbolic_argument_demotes_to_local (inp : DispatchInput) (num : Nat)
    (abi name : String) (proto : SyscallProto)
    (hjk : jumpkindIsSys inp.parentJumpkind = true)
    (hnum : inp.syscallNumEval = some num)
    (habi : resolveSyscallAbi inp.abiHint inp.syscallAbis num = some abi)
    (hname : inp.numberMapping abi num = some name)
    (hproto : inp.getPrototype abi name = some proto)
    (hsym : ∃ i : Nat, i < proto.args.length ∧ inp.argOf i = none) :
    processSuccessors inp = { outcome := .localFallback, trace := [] } := by
  obtain ⟨i, hi, hnone⟩ := hsym
  have hconc : concretizeArgs inp.argOf proto.args.length = none :=
    concretizeList_eq_none_of_mem inp.argOf (List.range proto.args.length) i
      (List.mem_range.mpr hi) hnone
  unfold processSuccessors
  simp [hjk, hnum, habi, hname, hproto, hconc]

/-- Witness for C2: the concrete `open` dispatch with a symbolic second
argument demotes to LOCAL with an empty trace. -/
theorem symbolic_argument_demotes_to_local_witness :
    processSuccessors sampleSymbolicArgInput = { outcome := .localFallback, trace := [] } :=
  symbolic_argument_demotes_to_local sampleSymbolicArgInput 2 "amd64" "open"
    ⟨["ptr", "int", "int"]⟩ (by decide) rfl rfl (by decide) (by decide)
    ⟨1, by decide, rfl⟩

/-! ### The commit path -/

/-- Helper: under the commit-path conditions (syscall trap, concrete
number, resolved ABI and name, name not bypassed, prototype found, all
arguments concrete), `process_successors` runs the straight-line commit
code of lines 114-142. -/
theorem processSuccessors_commit (inp : DispatchInput) (num : Nat)
    (abi name : String) (proto : SyscallProto) (args : List Nat)
    (hjk : jumpkindIsSys inp.parentJumpkind = true)
    (hnum : inp.syscallNumEval = some num)
    (habi : resolveSyscallAbi inp.abiHint inp.syscallAbis num = some abi)
    (hname : inp.numberMapping abi num = some name)
    (hbl : (effectiveBypassList abi).contains name = false)
    (hproto : inp.getPrototype abi name = some proto)
    (hargs : concretizeArgs inp.argOf proto.args.length = some args) :
    processSuccessors inp = commitDispatch inp num name args := by
  unfold processSuccessors
  simp [hjk, hnum, habi, hname, hproto, hargs]
  intro hmem
  exact absurd hmem (by simpa using hbl)

/-! ### C3: non-bypassed concrete syscalls commit exactly once -/

/-- C3: on a syscall outside the bypass set with a resolvable name and
prototype and all arguments concrete, the dispatcher calls the remote
executor exactly once and adds exactly one successor, with jumpkind
`Ijk_Ret`, the trivially-true guard, the processed flag set, a
description containing the syscall name, and artifacts
`is_syscall = true` and `name` = the resolved name. -/
theorem concrete_syscall_commits_one_successor (inp : DispatchInput) (num : Nat)
    (abi name : String) (proto : SyscallProto) (args : List Nat)
    (hjk : jumpkindIsSys inp.parentJumpkind = true)
    (hnum : inp.syscallNumEval = some num)
    (habi : resolveSyscallAbi inp.abiHint inp.syscallAbis num = some abi)
    (hname : inp.numberMapping abi num = some name)
    (hbl : (effectiveBypassList abi).contains name = false)
    (hproto : inp.getPrototype abi name = some proto)
    (hargs : concretizeArgs inp.argOf proto.args.length = some args) :
    ∃ c : Commit,
      (processSuccessors inp).outcome = .done c ∧
      countInvokeRemote (processSuccessors inp).trace = 1 ∧
      countAddSuccessor (processSuccessors inp).trace = 1 ∧
      c.invokedNum = num ∧
      c.invokedArgs = args ∧
      c.jumpkind = "Ijk_Ret" ∧
      c.guardTrue = true ∧
      c.processed = true ∧
      (∃ pre post : String, c.description = pre ++ name ++ post) ∧
      c.is_syscall = true ∧
      c.name = name := by
  rw [processSuccessors_commit inp num abi name proto args hjk hnum habi hname
    hbl hproto hargs]
  refine ⟨_, rfl, ?_, ?_, rfl, rfl, rfl, rfl, rfl,
    ⟨"SimProcedure ", " (syscall)", rfl⟩, rfl, rfl⟩
  · simp [commitDispatch, countInvokeRemote]
  · simp [commitDispatch, countAddSuccessor]

/-- Witness for C3: the concrete `open` dispatch (number 2, amd64, three
concrete arguments 10, 11, 12) commits with one remote invocation and
one successor. -/
theorem concrete_syscall_commits_one_successor_witness :
    ∃ c : Commit,
      (processSuccessors sampleOpenInput).outcome = .done c ∧
      countInvokeRemote (processSuccessors sampleOpenInput).trace = 1 ∧
      countAddSuccessor (processSuccessors sampleOpenInput).trace = 1 ∧
      c.invokedNum = 2 ∧
      c.invokedArgs = [10, 11, 12] ∧
      c.jumpkind = "Ijk_Ret" ∧
      c.guardTrue = true ∧
      c.processed = true ∧
      (∃ pre post : String, c.description = pre ++ "open" ++ post) ∧
      c.is_syscall = true ∧
      c.name = "open" :=
  concrete_syscall_commits_one_successor sampleOpenInput 2 "amd64" "open"
    ⟨["ptr", "int", "int"]⟩ [10, 11, 12] (by decide) rfl rfl (by decide)
    (by decide) (by decide) (by decide)

/-! ### C8: ordering of scratch reset, inspect events and the remote call -/

/-- C8: on the commit path the scratch reset (`sim_procedure` cleared,
`recent_block_count` set to 1) and the before-`syscall` inspect event
all happen strictly before the remote executor is invoked, and the
after-`syscall` inspect event happens only after the invocation (every
occurrence of it in the trace is strictly later). -/
theorem scratch_reset_and_inspect_bracket_remote_call (inp : DispatchInput)
    (num : Nat) (abi name : String) (proto : SyscallProto) (args : List Nat)
    (hjk : jumpkindIsSys inp.parentJumpkind = true)
    (hnum : inp.syscallNumEval = some num)
    (habi : resolveSyscallAbi inp.abiHint inp.syscallAbis num = some abi)
    (hname : inp.numberMapping abi num = some name)
    (hbl : (effectiveBypassList abi).contains name = false)
    (hproto : inp.getPrototype abi name = some proto)
    (hargs : concretizeArgs inp.argOf proto.args.length = some args) :
    ∃ iClear iCount iBefore iInvoke iAfter : Nat,
      iClear < iInvoke ∧ iCount < iInvoke ∧ iBefore < iInvoke ∧
      iInvoke < iAfter ∧
      (processSuccessors inp).trace.get? iClear = some .clearSimProcedure ∧
      (processSuccessors inp).trace.get? iCount = some (.setRecentBlockCount 1) ∧
      (processSuccessors inp).trace.get? iBefore = some (.inspectBefore name) ∧
      (processSuccessors inp).trace.get? iInvoke = some (.invokeRemote num args) ∧
      (processSuccessors inp).trace.get? iAfter = some (.inspectAfter name) ∧
      ∀ j : Nat, (processSuccessors inp).trace.get? j = some (.inspectAfter name) →
        iInvoke < j := by
  rw [processSuccessors_commit inp num abi name proto args hjk hnum habi hname
    hbl hproto hargs]
  refine ⟨2, 3, 4, 5, 7, by decide, by decide, by decide, by decide,
    rfl, rfl, rfl, rfl, rfl, ?_⟩
  intro j hj
  simp only [commitDispatch] at hj
  rcases j with _|_|_|_|_|_|_|_|_|_|j
  all_goals simp_all

/-- Witness for C8: the ordering holds on the concrete `open` dispatch. -/
theorem scratch_reset_and_inspect_bracket_remote_call_witness :
    ∃ iClear iCount iBefore iInvoke iAfter : Nat,
      iClear < iInvoke ∧ iCount < iInvoke ∧ iBefore < iInvoke ∧
      iInvoke < iAfter ∧
      (processSuccessors sampleOpenInput).trace.get? iClear = some .clearSimProcedure ∧
      (processSuccessors sampleOpenInput).trace.get? iCount = some (.setRecentBlockCount 1) ∧
      (processSuccessors sampleOpenInput).trace.get? iBefore = some (.inspectBefore "open") ∧
      (processSuccessors sampleOpenInput).trace.get? iInvoke = some (.invokeRemote 2 [10, 11, 12]) ∧
      (processSuccessors sampleOpenInput).trace.get? iAfter = some (.inspectAfter "open") ∧
      ∀ j : Nat,
        (processSuccessors sampleOpenInput).trace.get? j = some (.inspectAfter "open") →
        iInvoke < j :=
  scratch_reset_and_inspect_bracket_remote_call sampleOpenInput 2 "amd64" "open"
    ⟨["ptr", "int", "int"]⟩ [10, 11, 12] (by decide) rfl rfl (by decide)
    (by decide) (by decide) (by decide)

/-! ### C9: the successor description string -/

/-- Counterexample to C9 as stated: on the concrete committed `open`
dispatch the description is `"SimProcedure open (syscall)"` (built at
lines 140-141 as `'SimProcedure ' + syscall_name` then
`+= ' (syscall)'`), which is not `"syscall " ++ "open"`. -/
theorem description_counterexample :
    (processSuccessors sampleOpenInput).outcome =
      .done
        { sort := "SimProcedure"
          is_syscall := true
          name := "open"
          no_ret := false
          adds_exits := true
          scratchSimProcedure := none
          recentBlockCount := 1
          invokedNum := 2
          invokedArgs := [10, 11, 12]
          targetAddr := 4198400
          guardTrue := true
          jumpkind := "Ijk_Ret"
          description := "SimProcedure open (syscall)"
          processed := true } ∧
    "SimProcedure open (syscall)" ≠ "syscall " ++ "open" :=
  ⟨rfl, by decide⟩

/-- C9 as amended: on every committed dispatch the successor description
equals `"SimProcedure " ++ name ++ " (syscall)"` where `name` is the
resolved syscall name (so it contains the name, but with the
`SimProcedure` framing rather than the `"syscall " ++ name` format). -/
theorem description_is_simprocedure_framed (inp : DispatchInput) (num : Nat)
    (abi name : String) (proto : SyscallProto) (args : List Nat)
    (hjk : jumpkindIsSys inp.parentJumpkind = true)
    (hnum : inp.syscallNumEval = some num)
    (habi : resolveSyscallAbi inp.abiHint inp.syscallAbis num = some abi)
    (hname : inp.numberMapping abi num = some name)
    (hbl : (effectiveBypassList abi).contains name = false)
    (hproto : inp.getPrototype abi name = some proto)
    (hargs : concretizeArgs inp.argOf proto.args.length = some args) :
    ∃ c : Commit,
      (processSuccessors inp).outcome = .done c ∧
      c.description = "SimProcedure " ++ name ++ " (syscall)" := by
  rw [processSuccessors_commit inp num abi name proto args hjk hnum habi hname
    hbl hproto hargs]
  exact ⟨_, rfl, rfl⟩

/-- Witness for the amended C9 at the concrete `open` dispatch. -/
theorem description_is_simprocedure_framed_witness :
    ∃ c : Commit,
      (processSuccessors sampleOpenInput).outcome = .done c ∧
      c.description = "SimProcedure " ++ "open" ++ " (syscall)" :=
  description_is_simprocedure_framed sampleOpenInput 2 "amd64" "open"
    ⟨["ptr", "int", "int"]⟩ [10, 11, 12] (by decide) rfl rfl (by decide)
    (by decide) (by decide) (by decide)

/-! ### C4: ABI resolution order -/

/-- Helper: the range scan of `_syscall_abi` (lines 165-167) returns the
first declared entry whose half-open range contains the number. -/
theorem resolveAbiRanges_eq_find (abis : List (String × Nat × Nat)) (num : Nat) :
    resolveAbiRanges abis num =
      (abis.find? fun e => decide (e.2.1 ≤ num ∧ num < e.2.2)).map Prod.fst := by
  induction abis with
  | nil => rfl
  | cons e rest ih =>
    obtain ⟨abi, lo, hi⟩ := e
    by_cases h : lo ≤ num ∧ num < hi
    · simp [resolveAbiRanges, h, List.find?_cons_of_pos]
    · simp only [resolveAbiRanges, if_neg h]
      rw [List.find?_cons_of_neg _ (by simpa using h)]
      exact ih

/-- Dispatch attempt whose syscall number (600) is outside both declared
ABI ranges [0, 300) and [300, 600): ABI resolution must fail fatally. -/
def sampleUnresolvedInput : DispatchInput :=
  { sampleWriteInput with
    abiHint := none
    syscallAbis := [("abi32", 0, 300), ("abi64", 300, 600)]
    syscallNumEval := some 600 }

/-- C4: `_syscall_abi` is first-match-wins: a direct hint from the OS
model wins; else a sole declared ABI is returned for every number; else
the first declared entry whose half-open range `[min, max)` contains the
number; the two-range example resolves 0 and 299 to the first ABI and
300 and 599 to the second, 600 to no ABI; and an uncovered number makes
the dispatcher raise the fatal `unresolvedAbi` error. -/
theorem resolve_abi_first_match :
    (∀ (hint : String) (abis : List (String × Nat × Nat)) (num : Nat),
      resolveSyscallAbi (some hint) abis num = some hint) ∧
    (∀ (entry : String × Nat × Nat) (num : Nat),
      resolveSyscallAbi none [entry] num = some entry.1) ∧
    (∀ (abis : List (String × Nat × Nat)) (num : Nat),
      abis.length ≠ 1 →
      resolveSyscallAbi none abis num =
        (abis.find? fun e => decide (e.2.1 ≤ num ∧ num < e.2.2)).map Prod.fst) ∧
    (resolveSyscallAbi none [("abi32", 0, 300), ("abi64", 300, 600)] 0 = some "abi32" ∧
     resolveSyscallAbi none [("abi32", 0, 300), ("abi64", 300, 600)] 299 = some "abi32" ∧
     resolveSyscallAbi none [("abi32", 0, 300), ("abi64", 300, 600)] 300 = some "abi64" ∧
     resolveSyscallAbi none [("abi32", 0, 300), ("abi64", 300, 600)] 599 = some "abi64" ∧
     resolveSyscallAbi none [("abi32", 0, 300), ("abi64", 300, 600)] 600 = none) ∧
    (∀ (inp : DispatchInput) (num : Nat),
      jumpkindIsSys inp.parentJumpkind = true →
      inp.syscallNumEval = some num →
      resolveSyscallAbi inp.abiHint inp.syscallAbis num = none →
      processSuccessors inp = { outcome := .fatal (.unresolvedAbi num), trace := [] }) := by
  refine ⟨fun _ _ _ => rfl, fun e _ => by cases e; rfl, ?_, by decide, ?_⟩
  · intro abis num hne
    match abis with
    | [] => rfl
    | [e] => exact absurd rfl hne
    | e₁ :: e₂ :: rest =>
      show resolveAbiRanges _ _ = _
      exact resolveAbiRanges_eq_find _ num
  · intro inp num hjk hnum habi
    unfold processSuccessors
    simp [hjk, hnum, habi]

/-- Witness for C4: a sole declared ABI covers even out-of-range number
9999; the two-range multi-ABI example resolves 350 by range scan; and
the concrete uncovered number 600 raises `unresolvedAbi`. -/
theorem resolve_abi_first_match_witness :
    resolveSyscallAbi none [("amd64", 0, 600)] 9999 = some "amd64" ∧
    resolveSyscallAbi none [("abi32", 0, 300), ("abi64", 300, 600)] 350 =
      some "abi64" ∧
    processSuccessors sampleUnresolvedInput =
      { outcome := .fatal (.unresolvedAbi 600), trace := [] } :=
  ⟨resolve_abi_first_match.2.1 ("amd64", 0, 600) 9999,
   by
     rw [resolve_abi_first_match.2.2.1 [("abi32", 0, 300), ("abi64", 300, 600)] 350
       (by decide)]
     decide,
   resolve_abi_first_match.2.2.2.2 sampleUnresolvedInput 600 (by decide) rfl rfl⟩

/-! ### C5: failed number resolution is a classified fatal error -/

/-- Dispatch attempt whose syscall-number expression has no unique
concrete value (`eval_one` raises), with the bypass option unset. -/
def sampleSymbolicNumInput : DispatchInput :=
  { sampleWriteInput with syscallNumEval := none }

/-- Dispatch attempt on concrete number 99, which has no entry in the
sample number-to-name mapping. -/
def sampleUnknownNumInput : DispatchInput :=
  { sampleWriteInput with syscallNumEval := some 99 }

/-- C5: a syscall number that cannot be resolved always raises (empty
trace: no successor, no remote call): with no unique concrete value the
error is the line-69 `AngrUnsupportedSyscallError` (the spec's
`AmbiguousSyscallNumber`) when the `BYPASS_UNSUPPORTED_SYSCALL` option
is unset, else `unsatisfiableState` when the state is unsatisfiable,
else `symbolicSyscallNumber`; and a concrete number missing from the
number-to-name table raises `unknownSyscallNumber` when the option is
unset. -/
theorem unresolved_number_raises_classified_error (inp : DispatchInput)
    (hjk : jumpkindIsSys inp.parentJumpkind = true) :
    (inp.syscallNumEval = none → inp.bypassUnsupported = false →
      processSuccessors inp =
        { outcome := .fatal .unsupportedSyscallNotConfigured, trace := [] }) ∧
    (inp.syscallNumEval = none → inp.bypassUnsupported = true →
      inp.satisfiable = false →
      processSuccessors inp =
        { outcome := .fatal .unsatisfiableState, trace := [] }) ∧
    (inp.syscallNumEval = none → inp.bypassUnsupported = true →
      inp.satisfiable = true →
      processSuccessors inp =
        { outcome := .fatal .symbolicSyscallNumber, trace := [] }) ∧
    (∀ (num : Nat) (abi : String),
      inp.syscallNumEval = some num →
      resolveSyscallAbi inp.abiHint inp.syscallAbis num = some abi →
      inp.numberMapping abi num = none →
      inp.bypassUnsupported = false →
      processSuccessors inp =
        { outcome := .fatal (.unknownSyscallNumber num), trace := [] }) := by
  refine ⟨?_, ?_, ?_, ?_⟩
  · intro hnum hopt
    unfold processSuccessors
    simp [hjk, hnum, hopt]
  · intro hnum hopt hsat
    unfold processSuccessors
    simp [hjk, hnum, hopt, hsat]
  · intro hnum hopt hsat
    unfold processSuccessors
    simp [hjk, hnum, hopt, hsat]
  · intro num abi hnum habi hname hopt
    unfold processSuccessors
    simp [hjk, hnum, habi, hname, hopt]

/-- Witness for C5: the symbolic-number dispatch raises the line-69
error, and the unknown-number-99 dispatch raises
`unknownSyscallNumber 99`. -/
theorem unresolved_number_raises_classified_error_witness :
    processSuccessors sampleSymbolicNumInput =
      { outcome := .fatal .unsupportedSyscallNotConfigured, trace := [] } ∧
    processSuccessors sampleUnknownNumInput =
      { outcome := .fatal (.unknownSyscallNumber 99), trace := [] } :=
  ⟨(unresolved_number_raises_classified_error sampleSymbolicNumInput (by decide)).1
     rfl rfl,
   (unresolved_number_raises_classified_error sampleUnknownNumInput
     (by decide)).2.2.2 99 "amd64" rfl rfl (by decide) rfl⟩

/-! ### C7: dispatch decisions are all-or-nothing -/

/-- Helper: every run of `process_successors` either performs no
mutation at all (empty trace, outcome LOCAL or fatal) or runs the full
commit path. -/
theorem dispatch_cases (inp : DispatchInput) :
    ((processSuccessors inp).trace = [] ∧
      ∀ c : Commit, (processSuccessors inp).outcome ≠ .done c) ∨
    ∃ (num : Nat) (name : String) (args : List Nat),
      processSuccessors inp = commitDispatch inp num name args := by
  unfold processSuccessors
  repeat' split
  all_goals try exact Or.inl ⟨rfl, fun c hc => by cases hc⟩
  exact Or.inr ⟨_, _, _, rfl⟩

/-- C7: a dispatch decision is all-or-nothing: every path that abandons
remote handling (LOCAL or fatal outcome) mutates nothing (empty trace —
no sort, artifacts, description, processed flag or scratch change), and
the commit path adds exactly one successor, invokes the remote executor
exactly once and marks the attempt processed. -/
theorem dispatch_all_or_nothing (inp : DispatchInput) :
    (((processSuccessors inp).outcome = .localFallback ∨
      (∃ e : DispatchError, (processSuccessors inp).outcome = .fatal e)) →
      (processSuccessors inp).trace = []) ∧
    (∀ c : Commit, (processSuccessors inp).outcome = .done c →
      countAddSuccessor (processSuccessors inp).trace = 1 ∧
      countInvokeRemote (processSuccessors inp).trace = 1 ∧
      c.processed = true) := by
  rcases dispatch_cases inp with ⟨htr, hnd⟩ | ⟨num, name, args, heq⟩
  · exact ⟨fun _ => htr, fun c hc => absurd hc (hnd c)⟩
  · rw [heq]
    constructor
    · rintro (h | ⟨e, h⟩) <;> cases h
    · intro c hc
      refine ⟨?_, ?_, ?_⟩
      · simp [commitDispatch, countAddSuccessor]
      · simp [commitDispatch, countInvokeRemote]
      · cases hc
        rfl

/-- Witness for C7: on the abandoning `write` dispatch the trace is
empty, and on the committed `open` dispatch exactly one successor is
added, the executor is invoked once and the attempt is processed. -/
theorem dispatch_all_or_nothing_witness :
    (processSuccessors sampleWriteInput).trace = [] ∧
    countAddSuccessor (processSuccessors sampleOpenInput).trace = 1 :=
  ⟨(dispatch_all_or_nothing sampleWriteInput).1 (Or.inl rfl),
   ((dispatch_all_or_nothing sampleOpenInput).2
     { sort := "SimProcedure"
       is_syscall := true
       name := "open"
       no_ret := false
       adds_exits := true
       scratchSimProcedure := none
       recentBlockCount := 1
       invokedNum := 2
       invokedArgs := [10, 11, 12]
       targetAddr := 4198400
       guardTrue := true
       jumpkind := "Ijk_Ret"
       description := "SimProcedure open (syscall)"
       processed := true } rfl).1⟩
